import Mathlib

/-!
Shallow embedding of `cloudflare_waf.py`, a CLI utility managing Cloudflare
WAF rules: zone listing, ruleset resolution, backup/restore of rule lists,
and rule application.  The HTTP API is modelled as an abstract handler
(`Api σ`) producing responses and evolving an abstract server state `σ`;
the local filesystem state relevant to the code (backup files, rules file)
is the `Fs` structure.  Each Python function becomes a Lean function that
threads the server state, the filesystem, the list of API calls issued and
the messages printed.
-/

/-- The phase string the code matches rulesets against. -/
def customPhase : String := "http_request_firewall_custom"

/-- A WAF rule as found in the rules file: description, expression, action,
optional action parameters (opaque payload). -/
structure Rule where
  description : String
  expression : String
  action : String
  action_parameters : Option String
deriving Repr, DecidableEq

/-- The fields of one entry of a rulesets-listing response that the code
inspects: `id`, `kind` and `phase`. -/
structure RulesetInfo where
  id : String
  kind : String
  phase : String
deriving Repr, DecidableEq

/-- Response to the rulesets-listing call (`GET /zones/{zone_id}/rulesets`,
braces here denote URL templates). -/
structure RulesetListResp where
  success : Bool
  result : List RulesetInfo
deriving Repr, DecidableEq

/-- The `result` payload of a get-ruleset response, as far as the code reads
it: an optional `rules` key (absent key modelled as `none`). -/
structure GetResult where
  rules : Option (List Rule)
deriving Repr, DecidableEq

/-- Response to the get-ruleset call; stored verbatim as the backup file
content.  `result` is optional: a failure response or a hand-edited backup
file may lack it. -/
structure GetRulesetResp where
  success : Bool
  result : Option GetResult
deriving Repr, DecidableEq

/-- Response to the create-ruleset call (modelled from the spec, see
`create_ruleset`): a success flag and the id of the new ruleset. -/
structure CreateResp where
  success : Bool
  newId : String
deriving Repr, DecidableEq

/-- Response to the PUT replacing a ruleset's rules. -/
structure PutResp where
  success : Bool
  errors : String
deriving Repr, DecidableEq

/-- One zone as returned by the zone-listing call. -/
structure ZoneInfo where
  id : String
  name : String
deriving Repr, DecidableEq

/-- Response to the zone-listing call. -/
structure ZoneListResp where
  success : Bool
  result : List ZoneInfo
  errors : String
deriving Repr, DecidableEq

/-- One API call issued by the code, with the payload that matters. -/
inductive ApiCall where
  | listZones
  | listRulesets (zoneId : String)
  | getRuleset (zoneId rulesetId : String)
  | createRuleset (zoneId : String)
  | putRules (zoneId rulesetId : String) (rules : List Rule)
deriving Repr, DecidableEq

/-- Whether an API call is a PUT replacing a ruleset's rules. -/
def ApiCall.isPut : ApiCall → Bool
  | .putRules _ _ _ => true
  | _ => false

/-- Local filesystem state the code reads and writes: backup files (an
association list from zone id to the stored response, most recent first)
and the rules file (`none` when absent). -/
structure Fs where
  backups : List (String × GetRulesetResp)
  rulesFile : Option (List Rule)
deriving Repr, DecidableEq

/-- Content of the backup file for a zone, `none` when the file is absent. -/
def Fs.lookupBackup (fs : Fs) (zoneId : String) : Option GetRulesetResp :=
  (fs.backups.find? (fun p => p.1 == zoneId)).map Prod.snd

/-- Write (or overwrite) the backup file for a zone. -/
def Fs.writeBackup (fs : Fs) (zoneId : String) (resp : GetRulesetResp) : Fs :=
  Fs.mk ((zoneId, resp) :: fs.backups) fs.rulesFile

/-- The remote API, abstracted as response handlers over a server state `σ`.
Instantiated with constant responses for claims about the code's reaction
to arbitrary responses, and with `honestApi` for stateful round-trip
claims. -/
structure Api (σ : Type) where
  listRulesets : σ → String → σ × RulesetListResp
  getRuleset : σ → String → String → σ × GetRulesetResp
  createRuleset : σ → String → σ × CreateResp
  putRules : σ → String → String → List Rule → σ × PutResp

/-- Result of `get_ruleset_id`: final server state, API calls issued,
resolved ruleset id (or `none`). -/
structure ResolveResult (σ : Type) where
  server : σ
  calls : List ApiCall
  rulesetId : Option String

/-- The predicate of the `for` loop in `get_ruleset_id`: kind is `"zone"`
and phase is the custom-firewall phase. -/
def isCustomInfo (rs : RulesetInfo) : Bool :=
  rs.kind == "zone" && rs.phase == customPhase

/-- Embedding of `get_ruleset_id(zone_id)` (lines 69-78): list the zone's
rulesets; on success return the id of the first ruleset of kind `"zone"`
and custom-firewall phase; otherwise (failure, or no match) return none. -/
def get_ruleset_id (api : Api σ) (s : σ) (zoneId : String) : ResolveResult σ :=
  let p := api.listRulesets s zoneId
  ResolveResult.mk p.1 [ApiCall.listRulesets zoneId]
    (if p.2.success then (p.2.result.find? isCustomInfo).map RulesetInfo.id
     else none)

/-- Result of `create_ruleset`: server state, API calls, new id or `none`. -/
structure CreateResult (σ : Type) where
  server : σ
  calls : List ApiCall
  rulesetId : Option String

/-- Modelled from the spec: the function `create_ruleset` is called by
`apply_waf_rules` (line 147) but is not defined anywhere under `src/`;
per spec section 4.4, `createRuleset(zone_id)` issues a create call with
fixed name/kind/phase and returns the new ruleset id, or none on failure
with no error detail surfaced to the caller beyond the None result. -/
def create_ruleset (api : Api σ) (s : σ) (zoneId : String) : CreateResult σ :=
  let p := api.createRuleset s zoneId
  CreateResult.mk p.1 [ApiCall.createRuleset zoneId]
    (if p.2.success then some p.2.newId else none)

/-- Result of `backup_waf_rules`, `apply_waf_rules`: server state, local
filesystem, API calls issued, messages printed. -/
structure EffectResult (σ : Type) where
  server : σ
  fs : Fs
  calls : List ApiCall
  msgs : List String

/-- Embedding of `backup_waf_rules(zone_id)` (lines 81-97): resolve the
ruleset id; if absent, print a skip message and stop.  Otherwise fetch the
full ruleset; on a successful response write it verbatim to the zone's
backup file, else print a failure message and write nothing. -/
def backup_waf_rules (api : Api σ) (s : σ) (fs : Fs) (zoneId : String) :
    EffectResult σ :=
  let r := get_ruleset_id api s zoneId
  match r.rulesetId with
  | none =>
      EffectResult.mk r.server fs r.calls
        ["No existing ruleset found for Zone ID " ++ zoneId ++
         ". Skipping backup."]
  | some rulesetId =>
      let p := api.getRuleset r.server zoneId rulesetId
      if p.2.success then
        EffectResult.mk p.1 (fs.writeBackup zoneId p.2)
          (r.calls ++ [ApiCall.getRuleset zoneId rulesetId])
          ["Backup saved: backups/zone_" ++ zoneId ++ ".json"]
      else
        EffectResult.mk p.1 fs
          (r.calls ++ [ApiCall.getRuleset zoneId rulesetId])
          ["Failed to backup WAF rules for Zone ID " ++ zoneId ++ "."]

/-- The rule list `restore_waf_rules` extracts from a backup file:
`backup_data.get("result", \x7b\x7d).get("rules", [])`. -/
def backupRules (b : GetRulesetResp) : List Rule :=
  match b.result with
  | none => []
  | some r => r.rules.getD []

/-- Embedding of `restore_waf_rules(zone_id)` (lines 100-122): if the backup
file is absent, print "No backup found" and stop (no API call).  Otherwise
load it, resolve the current ruleset id (stop with "Cannot restore" if
none), and PUT the backup's rule list as a full replacement. -/
def restore_waf_rules (api : Api σ) (s : σ) (fs : Fs) (zoneId : String) :
    EffectResult σ :=
  match fs.lookupBackup zoneId with
  | none =>
      EffectResult.mk s fs [] ["No backup found for Zone ID " ++ zoneId ++ "."]
  | some backupData =>
      let r := get_ruleset_id api s zoneId
      match r.rulesetId with
      | none =>
          EffectResult.mk r.server fs r.calls
            ["No existing ruleset found for Zone ID " ++ zoneId ++
             ". Cannot restore."]
      | some rulesetId =>
          let p := api.putRules r.server zoneId rulesetId (backupRules backupData)
          EffectResult.mk p.1 fs
            (r.calls ++ [ApiCall.putRules zoneId rulesetId (backupRules backupData)])
            (if p.2.success then
              ["Successfully restored WAF rules for Zone ID " ++ zoneId ++ "."]
             else
              ["Failed to restore WAF rules for Zone ID " ++ zoneId ++ ": " ++
               p.2.errors])

/-- Embedding of `load_waf_rules()` (lines 125-132): a missing rules file
yields an empty list and an error message; otherwise the file's rule list
is returned as is. -/
def load_waf_rules (fs : Fs) : List Rule × List String :=
  match fs.rulesFile with
  | none => ([], ["Error: rules.json not found. Create it first."])
  | some rules => (rules, [])

/-- Embedding of `apply_waf_rules(zone_id)` (lines 135-160): load the rules;
if empty, report and stop.  Back up first, then resolve the ruleset id,
creating the ruleset when resolution fails; if still none, report and stop.
Finally issue one PUT replacing the ruleset's rules with the loaded list. -/
def apply_waf_rules (api : Api σ) (s : σ) (fs : Fs) (zoneId : String) :
    EffectResult σ :=
  let loaded := load_waf_rules fs
  if loaded.1.isEmpty then
    EffectResult.mk s fs []
      (loaded.2 ++ ["No WAF rules found. Please add rules to rules.json."])
  else
    let b := backup_waf_rules api s fs zoneId
    let r := get_ruleset_id api b.server zoneId
    let c : CreateResult σ :=
      match r.rulesetId with
      | some rulesetId => CreateResult.mk r.server [] (some rulesetId)
      | none => create_ruleset api r.server zoneId
    match c.rulesetId with
    | none =>
        EffectResult.mk c.server b.fs (b.calls ++ r.calls ++ c.calls)
          (b.msgs ++
           ["Failed to create or retrieve ruleset for Zone ID " ++ zoneId ++ "."])
    | some rulesetId =>
        let p := api.putRules c.server zoneId rulesetId loaded.1
        EffectResult.mk p.1 b.fs
          (b.calls ++ r.calls ++ c.calls ++
           [ApiCall.putRules zoneId rulesetId loaded.1])
          (b.msgs ++
           (if p.2.success then
             ["Successfully updated WAF rules for Zone ID " ++ zoneId ++ "."]
            else
             ["Failed to update WAF rules for Zone ID " ++ zoneId ++ ": " ++
              p.2.errors]))

/-- Embedding of `list_zones()` (lines 53-66): on success, print one line
per zone and return the mapping from "1","2",... to zone ids, in API
order; on failure, print the error payload and return the empty mapping. -/
def list_zones (resp : ZoneListResp) : List (String × String) × List String :=
  if resp.success then
    (resp.result.enum.map (fun p => (toString (p.1 + 1), p.2.id)),
     resp.result.enum.map
       (fun p => toString (p.1 + 1) ++ ". " ++ p.2.name ++ " (ID: " ++
         p.2.id ++ ")"))
  else
    ([], ["Error fetching zones: " ++ resp.errors])

/-- Python dict membership/lookup on the zone mapping, modelled on the
association list `list_zones` produces (keys are unique there). -/
def zoneLookup (zones : List (String × String)) (key : String) : Option String :=
  (zones.find? (fun p => p.1 == key)).map Prod.snd

/-- Embedding of the selection line of `main` (lines 199-200): split the
raw input on commas, keep the tokens whose trimmed form is a key of the
zone mapping, and map each to its zone id.  The guard of the comprehension
ensures the dict lookup never fails, modelled by a default value. -/
def select_zone_ids (zones : List (String × String)) (inp : String) :
    List String :=
  ((inp.splitOn ",").filter
      (fun num => (zoneLookup zones num.trim).isSome)).map
    (fun num => (zoneLookup zones num.trim).getD "")

/-- Specification-side form of the selection: the zone ids of exactly the
trimmed tokens that are keys of the mapping, in selection order. -/
def selectedZoneIdsSpec (zones : List (String × String)) (inp : String) :
    List String :=
  (inp.splitOn ",").filterMap (fun num => zoneLookup zones num.trim)

/-- Constant responses for the abstract API: the code's behaviour under
arbitrary fixed responses. -/
structure ConstResponses where
  lr : RulesetListResp
  gr : GetRulesetResp
  cr : CreateResp
  pr : PutResp
deriving Repr, DecidableEq

/-- The API handler returning the given constant responses; the server
state is trivial. -/
def constApi (R : ConstResponses) : Api Unit :=
  Api.mk (fun _ _ => ((), R.lr)) (fun _ _ _ => ((), R.gr))
    (fun _ _ => ((), R.cr)) (fun _ _ _ _ => ((), R.pr))

/-- A ruleset as held by the server: the listing fields plus its rule
list. -/
structure Ruleset where
  id : String
  kind : String
  phase : String
  rules : List Rule
deriving Repr, DecidableEq

/-- Remote server state: the rulesets of each zone. -/
def Server : Type := String → List Ruleset

/-- The listing entry the server reports for a ruleset. -/
def Ruleset.toInfo (r : Ruleset) : RulesetInfo :=
  RulesetInfo.mk r.id r.kind r.phase

/-- Server-side form of the custom-firewall predicate. -/
def isCustomRs (r : Ruleset) : Bool :=
  r.kind == "zone" && r.phase == customPhase

/-- An honest API: listing reports each ruleset's fields, get returns the
rules of the ruleset with the requested id (failure when absent), create
appends a fresh ruleset, and the PUT replaces the rules of the ruleset
with the requested id. -/
def honestApi : Api Server :=
  Api.mk
    (fun s z => (s, RulesetListResp.mk true ((s z).map Ruleset.toInfo)))
    (fun s z rid =>
      match (s z).find? (fun r => r.id == rid) with
      | some r => (s, GetRulesetResp.mk true (some (GetResult.mk (some r.rules))))
      | none => (s, GetRulesetResp.mk false none))
    (fun s z =>
      ((fun w => if w == z then
          s z ++ [Ruleset.mk ("new-" ++ z) "zone" customPhase []]
        else s w),
       CreateResp.mk true ("new-" ++ z)))
    (fun s z rid newRules =>
      ((fun w => if w == z then
          (s z).map (fun r =>
            if r.id == rid then Ruleset.mk r.id r.kind r.phase newRules else r)
        else s w),
       PutResp.mk (((s z).find? (fun r => r.id == rid)).isSome) ""))

/-- The zone's active rule list: the rules of the first custom-firewall
ruleset, the one the code resolves and operates on. -/
def zoneRuleList (s : Server) (z : String) : Option (List Rule) :=
  ((s z).find? isCustomRs).map Ruleset.rules

/-- With pairwise-distinct ruleset ids, lookup by the id of a member
ruleset finds that ruleset. -/
theorem find?_id_of_nodup (l : List Ruleset) (rs : Ruleset)
    (hmem : rs ∈ l) (hnd : (l.map Ruleset.id).Nodup) :
    l.find? (fun r => r.id == rs.id) = some rs := by
  induction l with
  | nil => cases hmem
  | cons a l ih =>
    simp only [List.map_cons, List.nodup_cons] at hnd
    rcases List.mem_cons.mp hmem with h | h
    · subst h
      simp [List.find?]
    · have hne : (a.id == rs.id) = false := by
        refine beq_eq_false_iff_ne.mpr (fun hid => hnd.1 ?_)
        rw [hid]
        exact List.mem_map_of_mem Ruleset.id h
      simp [List.find?, hne, ih h hnd.2]

/-- Mapping a rules-only update over a ruleset list commutes with finding
the first custom-firewall ruleset. -/
theorem find?_map_pres (l : List Ruleset) (f : Ruleset → Ruleset)
    (h : ∀ r, isCustomRs (f r) = isCustomRs r) :
    (l.map f).find? isCustomRs = (l.find? isCustomRs).map f := by
  rw [List.find?_map f l]
  rw [show isCustomRs ∘ f = isCustomRs from funext h]

/-- Keys of the zone mapping built from `enumFrom n` are the decimal
strings of n+1, n+2, ... -/
theorem enumFrom_keys (n : Nat) (l : List ZoneInfo) :
    ((l.enumFrom n).map (fun p => (toString (p.1 + 1), p.2.id))).map Prod.fst =
      (List.range' (n + 1) l.length).map toString := by
  induction l generalizing n with
  | nil => rfl
  | cons a l ih =>
    simp only [List.enumFrom, List.map_cons, List.length_cons, List.range'_succ]
    exact congrArg _ (ih (n + 1))

/-- Values of the zone mapping built from `enumFrom n` are the zone ids in
order. -/
theorem enumFrom_vals (n : Nat) (l : List ZoneInfo) :
    ((l.enumFrom n).map (fun p => (toString (p.1 + 1), p.2.id))).map Prod.snd =
      l.map ZoneInfo.id := by
  induction l generalizing n with
  | nil => rfl
  | cons a l ih =>
    simp only [List.enumFrom, List.map_cons]
    exact congrArg _ (ih (n + 1))

/-- C5: on a successful zone-listing response the returned mapping's keys
are exactly the decimal strings "1".."n" for the n returned zones, in API
order, and the values are the corresponding zone ids in the same order; on
an unsuccessful response the mapping is empty. -/
theorem list_zones_mapping (resp : ZoneListResp) :
    (resp.success = true →
      (list_zones resp).1.map Prod.fst =
        ((List.range' 1 resp.result.length).map toString) ∧
      (list_zones resp).1.map Prod.snd = resp.result.map ZoneInfo.id) ∧
    (resp.success = false → (list_zones resp).1 = []) := by
  constructor
  · intro hs
    unfold list_zones
    rw [hs]
    simp only [if_pos rfl]
    exact ⟨enumFrom_keys 0 resp.result, enumFrom_vals 0 resp.result⟩
  · intro hs
    simp [list_zones, hs]

/-- Witness for C5 on a concrete two-zone response and a concrete failing
response. -/
theorem list_zones_mapping_witness :
    ((list_zones (ZoneListResp.mk true
        [ZoneInfo.mk "zidA" "a.example", ZoneInfo.mk "zidB" "b.example"]
        "")).1.map Prod.fst = ["1", "2"] ∧
     (list_zones (ZoneListResp.mk true
        [ZoneInfo.mk "zidA" "a.example", ZoneInfo.mk "zidB" "b.example"]
        "")).1.map Prod.snd = ["zidA", "zidB"]) ∧
    (list_zones (ZoneListResp.mk false [] "boom")).1 = [] := by
  refine ⟨?_, (list_zones_mapping (ZoneListResp.mk false [] "boom")).2 rfl⟩
  have h := (list_zones_mapping (ZoneListResp.mk true
      [ZoneInfo.mk "zidA" "a.example", ZoneInfo.mk "zidB" "b.example"] "")).1 rfl
  exact ⟨h.1.trans (by decide), h.2⟩

/-- C7: the zone-id list passed downstream consists exactly of the
mapping's values at the trimmed selection tokens that are keys of the
mapping, in selection order; unknown tokens are silently dropped (the
selection function is total, so no exception is raised). -/
theorem select_zone_ids_eq_spec (zones : List (String × String)) (inp : String) :
    select_zone_ids zones inp = selectedZoneIdsSpec zones inp := by
  unfold select_zone_ids selectedZoneIdsSpec
  induction inp.splitOn "," with
  | nil => rfl
  | cons a l ih =>
    cases h : zoneLookup zones a.trim with
    | none => simpa [List.filter_cons, List.filterMap_cons, h] using ih
    | some v => simpa [List.filter_cons, List.filterMap_cons, h] using ih

/-- C4: with an empty loaded rule list (rules file absent or containing an
empty list), `apply_waf_rules` reports and stops: the server state and the
local filesystem are unchanged (in particular no backup file is written)
and no API call is issued. -/
theorem apply_empty_rules_no_effect {σ : Type} (api : Api σ) (s : σ) (fs : Fs)
    (zoneId : String) (h : (load_waf_rules fs).1 = []) :
    apply_waf_rules api s fs zoneId =
      EffectResult.mk s fs []
        ((load_waf_rules fs).2 ++
         ["No WAF rules found. Please add rules to rules.json."]) := by
  have h2 : (load_waf_rules fs).1.isEmpty = true := by rw [h]; rfl
  simp only [apply_waf_rules, h2, if_true]

/-- Witness for C4: rules file absent. -/
theorem apply_empty_rules_no_effect_witness :
    (load_waf_rules (Fs.mk [] none)).1 = [] ∧
    apply_waf_rules (constApi (ConstResponses.mk (RulesetListResp.mk true [])
        (GetRulesetResp.mk true none) (CreateResp.mk true "n")
        (PutResp.mk true ""))) () (Fs.mk [] none) "z1" =
      EffectResult.mk () (Fs.mk [] none) []
        (["Error: rules.json not found. Create it first."] ++
         ["No WAF rules found. Please add rules to rules.json."]) :=
  ⟨rfl, apply_empty_rules_no_effect _ () (Fs.mk [] none) "z1" rfl⟩

/-- C6: with no backup file for the zone, `restore_waf_rules` reports
"No backup found" and performs zero API calls; server state and filesystem
are unchanged. -/
theorem restore_no_backup_no_calls {σ : Type} (api : Api σ) (s : σ) (fs : Fs)
    (zoneId : String) (h : fs.lookupBackup zoneId = none) :
    restore_waf_rules api s fs zoneId =
      EffectResult.mk s fs []
        ["No backup found for Zone ID " ++ zoneId ++ "."] := by
  unfold restore_waf_rules
  rw [h]

/-- Witness for C6 on an empty filesystem. -/
theorem restore_no_backup_no_calls_witness :
    (Fs.mk [] none).lookupBackup "z1" = none ∧
    restore_waf_rules (constApi (ConstResponses.mk (RulesetListResp.mk true [])
        (GetRulesetResp.mk true none) (CreateResp.mk true "n")
        (PutResp.mk true ""))) () (Fs.mk [] none) "z1" =
      EffectResult.mk () (Fs.mk [] none) []
        ["No backup found for Zone ID " ++ "z1" ++ "."] :=
  ⟨rfl, restore_no_backup_no_calls _ () (Fs.mk [] none) "z1" rfl⟩

/-- C10: `get_ruleset_id` returns `none` both when the rulesets-listing
call fails and when it succeeds without any ruleset of kind "zone" and
custom-firewall phase, so the two situations are indistinguishable to the
caller. -/
theorem get_ruleset_id_failure_indistinguishable (R : ConstResponses)
    (zoneId : String)
    (h : R.lr.success = false ∨
      (R.lr.success = true ∧ R.lr.result.find? isCustomInfo = none)) :
    (get_ruleset_id (constApi R) () zoneId).rulesetId = none := by
  unfold get_ruleset_id constApi
  rcases h with h | ⟨h₁, h₂⟩
  · simp [h]
  · simp [h₁, h₂]

/-- Witness for C10: a failing listing and a successful listing with only a
managed (non-"zone") ruleset both resolve to `none`. -/
theorem get_ruleset_id_failure_indistinguishable_witness :
    (get_ruleset_id (constApi (ConstResponses.mk (RulesetListResp.mk false [])
        (GetRulesetResp.mk true none) (CreateResp.mk true "n")
        (PutResp.mk true ""))) () "z1").rulesetId = none ∧
    (get_ruleset_id (constApi (ConstResponses.mk (RulesetListResp.mk true
        [RulesetInfo.mk "r1" "managed" customPhase])
        (GetRulesetResp.mk true none) (CreateResp.mk true "n")
        (PutResp.mk true ""))) () "z1").rulesetId = none :=
  ⟨get_ruleset_id_failure_indistinguishable _ "z1" (Or.inl rfl),
   get_ruleset_id_failure_indistinguishable _ "z1" (Or.inr ⟨rfl, by decide⟩)⟩

/-- C8: whenever the get-ruleset response during backup is not successful,
`backup_waf_rules` leaves the local filesystem unchanged: no backup file is
written and a previously existing backup file for the zone is untouched. -/
theorem backup_fetch_failure_preserves_fs (R : ConstResponses) (fs : Fs)
    (zoneId : String) (hgr : R.gr.success = false) :
    (backup_waf_rules (constApi R) () fs zoneId).fs = fs := by
  cases hs : R.lr.success with
  | false => simp [backup_waf_rules, get_ruleset_id, constApi, hs]
  | true =>
    cases hf : R.lr.result.find? isCustomInfo with
    | none => simp [backup_waf_rules, get_ruleset_id, constApi, hs, hf]
    | some info =>
        simp [backup_waf_rules, get_ruleset_id, constApi, hs, hf, hgr]

/-- Witness for C8: an existing stale backup survives a failed fetch. -/
theorem backup_fetch_failure_preserves_fs_witness :
    (ConstResponses.mk (RulesetListResp.mk true
        [RulesetInfo.mk "r1" "zone" customPhase])
      (GetRulesetResp.mk false none) (CreateResp.mk true "n")
      (PutResp.mk true "")).gr.success = false ∧
    (backup_waf_rules (constApi (ConstResponses.mk (RulesetListResp.mk true
        [RulesetInfo.mk "r1" "zone" customPhase])
      (GetRulesetResp.mk false none) (CreateResp.mk true "n")
      (PutResp.mk true ""))) ()
      (Fs.mk [("z1", GetRulesetResp.mk true (some (GetResult.mk (some []))))]
        none) "z1").fs =
      Fs.mk [("z1", GetRulesetResp.mk true (some (GetResult.mk (some []))))]
        none :=
  ⟨rfl, backup_fetch_failure_preserves_fs _ _ "z1" rfl⟩

/-- C3: with a non-empty loaded rule list and a resolved ruleset id,
`apply_waf_rules` issues exactly one PUT, whose body's rule list is exactly
the loaded list, in order, addressed to the resolved ruleset (full
replacement, no merging of prior rules). -/
theorem apply_put_exactly_loaded_rules (R : ConstResponses) (fs : Fs)
    (zoneId : String) (rules : List Rule) (info : RulesetInfo)
    (hrules : fs.rulesFile = some rules) (hne : rules ≠ [])
    (hs : R.lr.success = true)
    (hf : R.lr.result.find? isCustomInfo = some info) :
    ((apply_waf_rules (constApi R) () fs zoneId).calls.filter ApiCall.isPut) =
      [ApiCall.putRules zoneId info.id rules] := by
  have hload : load_waf_rules fs = (rules, []) := by
    simp [load_waf_rules, hrules]
  have hemp : rules.isEmpty = false := by
    cases rules with
    | nil => exact absurd rfl hne
    | cons a l => rfl
  cases hg : R.gr.success with
  | false =>
      simp [apply_waf_rules, backup_waf_rules, get_ruleset_id, constApi,
        hload, hemp, hs, hf, hg, List.filter, ApiCall.isPut]
  | true =>
      simp [apply_waf_rules, backup_waf_rules, get_ruleset_id, constApi,
        hload, hemp, hs, hf, hg, List.filter, ApiCall.isPut]

/-- Witness for C3: the single Block-TOR rule from the spec's example is
pushed as the entire rule body. -/
theorem apply_put_exactly_loaded_rules_witness :
    ((apply_waf_rules (constApi (ConstResponses.mk (RulesetListResp.mk true
        [RulesetInfo.mk "r1" "zone" customPhase])
      (GetRulesetResp.mk true (some (GetResult.mk (some []))))
      (CreateResp.mk true "n") (PutResp.mk true ""))) ()
      (Fs.mk []
        (some [Rule.mk "Block TOR" "(ip.src.country in \x7b\"T1\"\x7d)"
          "block" none])) "z1").calls.filter ApiCall.isPut) =
      [ApiCall.putRules "z1" "r1"
        [Rule.mk "Block TOR" "(ip.src.country in \x7b\"T1\"\x7d)"
          "block" none]] := by
  have h := apply_put_exactly_loaded_rules (ConstResponses.mk
      (RulesetListResp.mk true [RulesetInfo.mk "r1" "zone" customPhase])
      (GetRulesetResp.mk true (some (GetResult.mk (some []))))
      (CreateResp.mk true "n") (PutResp.mk true ""))
      (Fs.mk []
        (some [Rule.mk "Block TOR" "(ip.src.country in \x7b\"T1\"\x7d)"
          "block" none])) "z1"
      [Rule.mk "Block TOR" "(ip.src.country in \x7b\"T1\"\x7d)" "block" none]
      (RulesetInfo.mk "r1" "zone" customPhase) rfl (by decide) rfl (by decide)
  exact h

/-- C1: with a non-empty loaded rule list and no ruleset of kind "zone" and
custom-firewall phase listed for the zone, `apply_waf_rules` invokes the
create-ruleset operation and addresses the subsequent single PUT to the id
it returned; and `create_ruleset` returns the new id exactly when the
create response succeeds, `none` otherwise. -/
theorem apply_creates_ruleset_when_absent (R : ConstResponses) (fs : Fs)
    (zoneId : String) (rules : List Rule)
    (hrules : fs.rulesFile = some rules) (hne : rules ≠ [])
    (hs : R.lr.success = true)
    (hf : R.lr.result.find? isCustomInfo = none)
    (hc : R.cr.success = true) :
    (ApiCall.createRuleset zoneId ∈
        (apply_waf_rules (constApi R) () fs zoneId).calls ∧
      ((apply_waf_rules (constApi R) () fs zoneId).calls.filter
          ApiCall.isPut) =
        [ApiCall.putRules zoneId R.cr.newId rules]) ∧
    (∀ S : ConstResponses,
      (create_ruleset (constApi S) () zoneId).rulesetId =
        if S.cr.success = true then some S.cr.newId else none) := by
  have hload : load_waf_rules fs = (rules, []) := by
    simp [load_waf_rules, hrules]
  have hemp : rules.isEmpty = false := by
    cases rules with
    | nil => exact absurd rfl hne
    | cons a l => rfl
  refine ⟨?_, fun S => by simp [create_ruleset, constApi]⟩
  constructor
  · simp [apply_waf_rules, backup_waf_rules, get_ruleset_id, create_ruleset,
      constApi, hload, hemp, hs, hf, hc]
  · simp [apply_waf_rules, backup_waf_rules, get_ruleset_id, create_ruleset,
      constApi, hload, hemp, hs, hf, hc, List.filter, ApiCall.isPut]

/-- Witness for C1: a zone listing only a managed ruleset gets a ruleset
created and the rules pushed to the new id. -/
theorem apply_creates_ruleset_when_absent_witness :
    (ApiCall.createRuleset "z1" ∈
        (apply_waf_rules (constApi (ConstResponses.mk
          (RulesetListResp.mk true [RulesetInfo.mk "r1" "managed" customPhase])
          (GetRulesetResp.mk true none) (CreateResp.mk true "newid")
          (PutResp.mk true ""))) ()
          (Fs.mk [] (some [Rule.mk "d" "e" "block" none])) "z1").calls ∧
      ((apply_waf_rules (constApi (ConstResponses.mk
          (RulesetListResp.mk true [RulesetInfo.mk "r1" "managed" customPhase])
          (GetRulesetResp.mk true none) (CreateResp.mk true "newid")
          (PutResp.mk true ""))) ()
          (Fs.mk [] (some [Rule.mk "d" "e" "block" none])) "z1").calls.filter
          ApiCall.isPut) =
        [ApiCall.putRules "z1" "newid" [Rule.mk "d" "e" "block" none]]) ∧
    (∀ S : ConstResponses,
      (create_ruleset (constApi S) () "z1").rulesetId =
        if S.cr.success = true then some S.cr.newId else none) :=
  apply_creates_ruleset_when_absent _ _ "z1" [Rule.mk "d" "e" "block" none]
    rfl (by decide) rfl (by decide) rfl

/-- Counterexample to C9 as stated: a zone whose backup file exists but has
no "result" payload and whose rulesets listing (successful, empty) resolves
no ruleset id.  `restore_waf_rules` stops with "Cannot restore" and issues
no PUT at all, instead of issuing a PUT with an empty rule list. -/
theorem restore_missing_keys_counterexample :
    (Fs.mk [("z1", GetRulesetResp.mk true none)] none).lookupBackup "z1" =
      some (GetRulesetResp.mk true none) ∧
    ((restore_waf_rules (constApi (ConstResponses.mk
        (RulesetListResp.mk true []) (GetRulesetResp.mk true none)
        (CreateResp.mk true "n") (PutResp.mk true ""))) ()
        (Fs.mk [("z1", GetRulesetResp.mk true none)] none) "z1").calls.filter
        ApiCall.isPut) = [] := by
  constructor
  · decide
  · decide

/-- C9 (amended): for a zone whose backup file exists but lacks a "result"
payload or whose result lacks a "rules" list, and whose current ruleset id
resolves, `restore_waf_rules` does not fail on the missing keys: it issues
a PUT whose body's rule list is the empty list. -/
theorem restore_missing_keys_puts_empty (R : ConstResponses) (fs : Fs)
    (zoneId : String) (b : GetRulesetResp) (info : RulesetInfo)
    (hb : fs.lookupBackup zoneId = some b)
    (hm : b.result.bind GetResult.rules = none)
    (hs : R.lr.success = true)
    (hf : R.lr.result.find? isCustomInfo = some info) :
    (restore_waf_rules (constApi R) () fs zoneId).calls =
      [ApiCall.listRulesets zoneId, ApiCall.putRules zoneId info.id []] := by
  have hbr : backupRules b = [] := by
    unfold backupRules
    cases hres : b.result with
    | none => rfl
    | some r =>
        rw [hres] at hm
        have hr : r.rules = none := hm
        show r.rules.getD [] = []
        rw [hr]
        rfl
  unfold restore_waf_rules
  rw [hb]
  simp [get_ruleset_id, constApi, hs, hf, hbr]

/-- Witness for the amended C9: a backup file with a success flag but no
result payload leads to a PUT erasing all rules. -/
theorem restore_missing_keys_puts_empty_witness :
    (restore_waf_rules (constApi (ConstResponses.mk
        (RulesetListResp.mk true [RulesetInfo.mk "r1" "zone" customPhase])
        (GetRulesetResp.mk true none) (CreateResp.mk true "n")
        (PutResp.mk true ""))) ()
        (Fs.mk [("z1", GetRulesetResp.mk true none)] none) "z1").calls =
      [ApiCall.listRulesets "z1", ApiCall.putRules "z1" "r1" []] :=
  restore_missing_keys_puts_empty _ _ "z1" (GetRulesetResp.mk true none)
    (RulesetInfo.mk "r1" "zone" customPhase) (by decide) rfl rfl (by decide)

/-- C2: against the honest stateful API, on a zone whose custom-firewall
ruleset exists (so the backup's fetch succeeds) and whose ruleset ids are
pairwise distinct, `backup_waf_rules` followed immediately by
`restore_waf_rules`, with no other change to the zone in between, leaves
the zone's active rule list equal to what it was before the backup. -/
theorem backup_restore_roundtrip (srv : Server) (fs : Fs) (zoneId : String)
    (rs : Ruleset)
    (hfind : (srv zoneId).find? isCustomRs = some rs)
    (hnd : ((srv zoneId).map Ruleset.id).Nodup) :
    zoneRuleList
      (restore_waf_rules honestApi
        (backup_waf_rules honestApi srv fs zoneId).server
        (backup_waf_rules honestApi srv fs zoneId).fs zoneId).server zoneId =
      zoneRuleList srv zoneId := by
  have hcomp : isCustomInfo ∘ Ruleset.toInfo = isCustomRs := rfl
  have h1 : ((srv zoneId).map Ruleset.toInfo).find? isCustomInfo =
      some rs.toInfo := by
    rw [List.find?_map Ruleset.toInfo (srv zoneId), hcomp, hfind]
    rfl
  have hresolve : get_ruleset_id honestApi srv zoneId =
      ResolveResult.mk srv [ApiCall.listRulesets zoneId] (some rs.id) := by
    simp [get_ruleset_id, honestApi, h1, Ruleset.toInfo]
  have hmem := List.mem_of_find?_eq_some hfind
  have hbyid := find?_id_of_nodup (srv zoneId) rs hmem hnd
  have hbackup : backup_waf_rules honestApi srv fs zoneId =
      EffectResult.mk srv
        (fs.writeBackup zoneId
          (GetRulesetResp.mk true (some (GetResult.mk (some rs.rules)))))
        [ApiCall.listRulesets zoneId, ApiCall.getRuleset zoneId rs.id]
        ["Backup saved: backups/zone_" ++ zoneId ++ ".json"] := by
    unfold backup_waf_rules
    rw [hresolve]
    simp [honestApi, hbyid]
  rw [hbackup]
  have hlk : ((fs.writeBackup zoneId
      (GetRulesetResp.mk true (some (GetResult.mk (some rs.rules))))).lookupBackup
        zoneId) =
      some (GetRulesetResp.mk true (some (GetResult.mk (some rs.rules)))) := by
    simp [Fs.writeBackup, Fs.lookupBackup, List.find?]
  unfold restore_waf_rules
  rw [hlk]
  simp only [hresolve, backupRules, Option.getD]
  show zoneRuleList
      (honestApi.putRules srv zoneId rs.id rs.rules).1 zoneId = _
  have hpres : ∀ r : Ruleset,
      isCustomRs (if r.id == rs.id then
        Ruleset.mk r.id r.kind r.phase rs.rules else r) = isCustomRs r := by
    intro r
    cases h : r.id == rs.id with
    | false => simp [h]
    | true => simp [h, isCustomRs]
  have hput : (honestApi.putRules srv zoneId rs.id rs.rules).1 zoneId =
      (srv zoneId).map (fun r =>
        if r.id == rs.id then Ruleset.mk r.id r.kind r.phase rs.rules else r) := by
    simp [honestApi]
  unfold zoneRuleList
  rw [hput, find?_map_pres _ _ hpres, hfind]
  simp

/-- Witness for C2: a one-ruleset zone round-trips its single Block rule. -/
theorem backup_restore_roundtrip_witness :
    zoneRuleList
      (restore_waf_rules honestApi
        (backup_waf_rules honestApi
          (fun _ => [Ruleset.mk "r1" "zone" customPhase
            [Rule.mk "d" "e" "block" none]]) (Fs.mk [] none) "z1").server
        (backup_waf_rules honestApi
          (fun _ => [Ruleset.mk "r1" "zone" customPhase
            [Rule.mk "d" "e" "block" none]]) (Fs.mk [] none) "z1").fs
        "z1").server "z1" =
      zoneRuleList
        (fun _ => [Ruleset.mk "r1" "zone" customPhase
          [Rule.mk "d" "e" "block" none]]) "z1" :=
  backup_restore_roundtrip _ (Fs.mk [] none) "z1"
    (Ruleset.mk "r1" "zone" customPhase [Rule.mk "d" "e" "block" none])
    (by decide) (by decide)
